import Mathlib

/-!
Verification of the limo-api booking-quote service.

The repository is a set of near-duplicate single-file Express servers.  The
claims are about the quote route (`POST /api/quote`), its input validation,
its distance resolution against the Google Distance Matrix API (with a rough
fallback, and a 12-hour cache in one variant), its pricing formula, and the
shared-secret auth middleware.

Modelling conventions:
* Currency figures and distances are rationals (`ℚ`); JS numbers are treated
  as exact arithmetic, which matches the specification's real-valued model.
* `pax` and `luggage` are passenger/bag counts, modelled as `Option ℕ`
  (`none` = field absent from the JSON body).
* A fetch of the Distance Matrix endpoint is modelled by its observable
  outcome: `none` for a thrown network error / timeout, otherwise the HTTP
  `ok` flag, status code and parsed JSON payload.
* `Math.round` is `round` on `ℚ` (round half towards `+∞`), which agrees
  with the JS semantics on every input.
-/

/-- Source `Math.round(q * 100) / 100`: round a currency amount to 2 decimals. -/
def round2 (q : ℚ) : ℚ := (round (q * 100) : ℚ) / 100

/-- JS `String.prototype.toLowerCase`, modelled characterwise. -/
def lowerStr (s : String) : String := ⟨s.data.map Char.toLower⟩

/-- JS `String.prototype.trim`: strip whitespace from both ends. -/
def trimStr (s : String) : String :=
  ⟨((s.data.dropWhile Char.isWhitespace).reverse.dropWhile Char.isWhitespace).reverse⟩

/-- Substring test on character lists (used to model the airport regex). -/
def listInfixB (needle hay : List Char) : Bool :=
  hay.tails.any (fun t => needle.isPrefixOf t)

/-- A JSON body for `POST /api/quote`.  Each field is optional: `none`
models a field absent from the request body.  The timestamp field is called
`when` in the source; `whenAt` here. -/
structure Body where
  pickup : Option String
  dropoff : Option String
  whenAt : Option String
  pax : Option Nat
  luggage : Option Nat
deriving DecidableEq

/-- JS falsiness of an optional string field: absent or the empty string. -/
def strFalsy : Option String → Bool
  | none => true
  | some s => s == ""

/-- Shape of `rows[0].elements[0]` of a Distance Matrix payload.  The `distance`,
`duration` and `duration_in_traffic` fields model the nested `.value`
magnitudes (meters resp. seconds); `none` models an absent field. -/
structure DMElement where
  status : String
  distance : Option Nat
  duration : Option Nat
  duration_in_traffic : Option Nat
deriving DecidableEq

/-- Parsed Distance Matrix JSON payload: top-level status and rows of
elements. -/
structure DMData where
  status : String
  rows : List (List DMElement)
deriving DecidableEq

/-- Outcome of a completed `fetch` + `json()` of the provider: HTTP `ok`
flag, HTTP status code, and the parsed payload (`none` when no usable JSON
was produced). -/
structure FetchResult where
  ok : Bool
  status : Nat
  data : Option DMData
deriving DecidableEq

/-- Navigation `rows?.[0]?.elements?.[0]` on the payload. -/
def firstElement (data : DMData) : Option DMElement :=
  (data.rows.head?.getD []).head?

/-- Source `Math.max(5, Math.min(45, Math.abs(pickup.length - dropoff.length) + 10))`:
the length-heuristic rough fallback distance shared by the variants. -/
def roughLenKm (pickup dropoff : String) : ℚ :=
  max 5 (min 45 ((((pickup.length : ℤ) - (dropoff.length : ℤ)).natAbs + 10 : ℕ) : ℚ))

/-- Source `Number(pax || 1)` on an optional count: absent or `0` becomes `1`. -/
def paxNum : Option Nat → Nat
  | none => 1
  | some 0 => 1
  | some (n + 1) => n + 1

/-- Source `Number(luggage || 0)` on an optional count: absent becomes `0`. -/
def lugNum : Option Nat → Nat
  | none => 0
  | some n => n

namespace ServerJs

/-- Source `fetchJsonWithTimeout`: a thrown fetch/abort error (modelled by `none`)
is caught and becomes `{ ok: false, status: 0, data: null }`. -/
def fetchJsonWithTimeout (f : Option FetchResult) : FetchResult :=
  match f with
  | some r => r
  | none => ⟨false, 0, none⟩

/-- Source `getDistanceKmAndMinutes(pickup, dropoff)` from `src/server.js`.
Returns `.error ()` where the code throws (reading `el.distance.value` when
`distance` is absent, caught by the route's try/catch); `.ok none` for every
`null`-returning path (no key, `!ok`, missing/non-`"OK"` payload or
element); `.ok (some (km, minutes))` on success, where
`km = el.distance.value / 1000` and minutes prefer `duration_in_traffic`
over `duration`. -/
def getDistanceKmAndMinutes (hasKey : Bool) (f : Option FetchResult) :
    Except Unit (Option (ℚ × ℤ)) :=
  if !hasKey then .ok none
  else
    let r := fetchJsonWithTimeout f
    if !r.ok then .ok none
    else
      match r.data with
      | none => .ok none
      | some data =>
        if data.status != "OK" then .ok none
        else
          match firstElement data with
          | none => .ok none
          | some el =>
            if el.status != "OK" then .ok none
            else
              match el.distance with
              | none => .error ()
              | some meters =>
                let secs : Nat := ((el.duration_in_traffic).orElse
                  (fun _ => el.duration)).getD 0
                .ok (some ((meters : ℚ) / 1000, round ((secs : ℚ) / 60)))

/-- The missing-field test of `POST /api/quote`:
`!pickup || !dropoff || !when`. -/
def reqMissing (b : Body) : Bool :=
  strFalsy b.pickup || strFalsy b.dropoff || strFalsy b.whenAt

/-- The itemized `breakdown` object of a quote response. -/
structure Breakdown where
  base : ℚ
  perKm : ℚ
  distanceKm : ℚ
  distanceSource : String
  perPax : ℚ
  perBag : ℚ
  durationMin : Option ℤ
deriving DecidableEq

/-- The `quote` object of a success response. -/
structure Quote where
  currency : String
  total : ℚ
  breakdown : Breakdown
  pickup : String
  dropoff : String
  whenAt : String
  pax : Nat
  luggage : Nat
deriving DecidableEq

/-- An HTTP response of the quote route: an error status with message, or a
success status with a quote. -/
inductive Response where
  | err (status : Nat) (error : String)
  | okQ (status : Nat) (quote : Quote)
deriving DecidableEq

/-- HTTP status of a response. -/
def Response.statusOf : Response → Nat
  | .err s _ => s
  | .okQ s _ => s

/-- The `distanceKm`/`distanceSource`/`durationMin` variables of the route:
start from the rough values and switch to the helper's result (source
`"google"`) when it neither threw (caught and swallowed) nor returned
`null`. -/
def resolveKm (hasKey : Bool) (f : Option FetchResult) (pickup dropoff : String) :
    ℚ × String × Option ℤ :=
  let dm : Option (ℚ × ℤ) :=
    match getDistanceKmAndMinutes hasKey f with
    | .ok v => v
    | .error _ => none
  match dm with
  | some (km, m) => (km, "google", some m)
  | none => (roughLenKm pickup dropoff, "rough", none)

/-- The body of `POST /api/quote` after validation: pricing knobs
(`base = 65`, `perKm = 2.2`, `perPax = 5 * (Number(pax||1) - 1)`,
`perBag = 2 * Number(luggage||0)`), distance from Google (source
`"google"`) with the rough length-heuristic fallback (source `"rough"`)
when the helper returns `null` or throws, then
`total = Math.round((base + perKm*distanceKm + perPax + perBag)*100)/100`. -/
def quoteValid (hasKey : Bool) (f : Option FetchResult) (b : Body) : Quote :=
  let base : ℚ := 65
  let perKm : ℚ := 11 / 5
  let perPax : ℚ := 5 * ((paxNum b.pax : ℚ) - 1)
  let perBag : ℚ := 2 * (lugNum b.luggage : ℚ)
  let pickup := b.pickup.getD ""
  let dropoff := b.dropoff.getD ""
  let rkd : ℚ × String × Option ℤ := resolveKm hasKey f pickup dropoff
  { currency := "AUD"
    total := round2 (base + perKm * rkd.1 + perPax + perBag)
    breakdown := ⟨base, perKm, rkd.1, rkd.2.1, perPax, perBag, rkd.2.2⟩
    pickup := pickup
    dropoff := dropoff
    whenAt := b.whenAt.getD ""
    pax := paxNum b.pax
    luggage := lugNum b.luggage }

/-- Route `POST /api/quote` from `src/server.js`: destructure `req.body || {}`
(`body = none` models a request without a JSON body), answer 400 when
pickup, dropoff or `when` is missing/empty, otherwise price the trip. -/
def quoteHandler (hasKey : Bool) (f : Option FetchResult) (body : Option Body) : Response :=
  let b := body.getD ⟨none, none, none, none, none⟩
  if reqMissing b then .err 400 "pickup, dropoff, and when are required"
  else .okQ 200 (quoteValid hasKey f b)

/-- Holds (`true`) exactly on the failure modes of the distance helper: no key,
network error/timeout, non-`ok` HTTP status, missing/non-`"OK"` payload or
element, or missing distance value (the throwing path). -/
def providerFailed (hasKey : Bool) (f : Option FetchResult) : Bool :=
  match getDistanceKmAndMinutes hasKey f with
  | .ok (some _) => false
  | _ => true

end ServerJs

namespace Part003

/-- Source `getClientKey(req)`: the first truthy value among the three header
spellings and the `key` query parameter, trimmed. -/
def getClientKey (h1 h2 h3 q : String) : String :=
  trimStr (if h1 != "" then h1 else if h2 != "" then h2 else if h3 != "" then h3 else q)

/-- The paths exempt from auth. -/
def OPEN_PATHS : List String := ["/api/ping", "/api/diag/auth"]

/-- What the auth middleware does with a request. -/
inductive AuthOutcome where
  | next
  | respond (status : Nat) (error : String)
deriving DecidableEq

/-- The auth middleware of `part_003`: open paths pass through; with no
server key configured every request gets 500; otherwise a client key that
differs from the (already env-trimmed) server key gets
`401 {ok:false, error:'Unauthorized'}` — a fixed message that does not
depend on either key. -/
def authMiddleware (serverKey path h1 h2 h3 q : String) : AuthOutcome :=
  if OPEN_PATHS.contains path then .next
  else if serverKey == "" then .respond 500 "Server key not configured"
  else if getClientKey h1 h2 h3 q != serverKey then .respond 401 "Unauthorized"
  else .next

/-- The `breakdown` object built by `calculatePrice`: all four pricing
coefficients (as rates, not charges), the distance, and
source/duration slots filled in by the caller. -/
structure Breakdown3 where
  base : ℚ
  perKm : ℚ
  perPax : ℚ
  perBag : ℚ
  distanceKm : ℚ
  distanceSource : Option String
  durationMin : Option ℤ
deriving DecidableEq

/-- Source `calculatePrice({distanceKm, pax, luggage})` from `part_003`:
`total = base + perKm*distanceKm + perPax*(Number(pax)||0)
+ perBag*(Number(luggage)||0)`, rounded to 2 decimals.  Note the passenger
coefficient multiplies the full `pax` count. -/
def calculatePrice (distanceKm : ℚ) (pax luggage : Option Nat) : ℚ × Breakdown3 :=
  let breakdown : Breakdown3 := ⟨65, 11 / 5, 5, 2, distanceKm, none, none⟩
  let total := breakdown.base + breakdown.perKm * breakdown.distanceKm
    + breakdown.perPax * (pax.getD 0 : ℚ) + breakdown.perBag * (luggage.getD 0 : ℚ)
  (round2 total, breakdown)

/-- Source `getGoogleDistance(pickup, dropoff)`: `none` models every
`null`-returning path (no key, thrown fetch error, non-`ok` HTTP status,
missing/non-`"OK"` payload or element, absent distance value).  On success
`distanceKm = Math.round((meters/1000)*1000)/1000`, which equals
`meters/1000` exactly for integer meters, and
`durationMin = Math.round(seconds/60)` when a duration is present. -/
def getGoogleDistance (hasKey : Bool) (f : Option FetchResult) : Option (ℚ × Option ℤ) :=
  if !hasKey then none
  else
    match f with
    | none => none
    | some r =>
      if !r.ok then none
      else
        match r.data with
        | none => none
        | some data =>
          if data.status != "OK" then none
          else
            match firstElement data with
            | none => none
            | some el =>
              if el.status != "OK" then none
              else
                match el.distance with
                | none => none
                | some meters =>
                  some ((meters : ℚ) / 1000,
                    el.duration.map (fun s => round ((s : ℚ) / 60)))

/-- The missing-field test of `part_003`'s quote route:
`!pickup || !dropoff` — the `when` field is not checked. -/
def reqMissing3 (b : Body) : Bool :=
  strFalsy b.pickup || strFalsy b.dropoff

/-- The `quote` object of `part_003`'s response; `when`, `pax` and
`luggage` are echoed back exactly as received (possibly absent). -/
structure Quote3 where
  currency : String
  total : ℚ
  breakdown : Breakdown3
  pickup : String
  dropoff : String
  whenAt : Option String
  pax : Option Nat
  luggage : Option Nat
deriving DecidableEq

/-- An HTTP response of `part_003`'s quote route. -/
inductive Response3 where
  | err (status : Nat) (error : String)
  | okQ (status : Nat) (quote : Quote3)
deriving DecidableEq

/-- HTTP status of a `part_003` response. -/
def Response3.statusOf : Response3 → Nat
  | .err s _ => s
  | .okQ s _ => s

/-- Source `roughDistanceKm(pickup, dropoff)`: table lookup on the normalized
`"pickup -> dropoff"` key, 16 km for the known airport route, else 12. -/
def roughDistanceKm (pickup dropoff : String) : ℚ :=
  let key := trimStr (lowerStr (pickup ++ " -> " ++ dropoff))
  if key == "brisbane airport -> south bank" then 16 else 12

/-- The `distanceKm`/`durationMin`/`distanceSource` variables of
`part_003`'s route: Google first, else the table fallback with source
`"rough"`. -/
def resolveKm (hasKey : Bool) (f : Option FetchResult) (pickup dropoff : String) :
    ℚ × Option ℤ × String :=
  match getGoogleDistance hasKey f with
  | some (km, dm) => (km, dm, "google")
  | none => (roughDistanceKm pickup dropoff, none, "rough")

/-- The body of `part_003`'s quote route after validation: resolve the
distance, price with `calculatePrice`, and fill the source/duration slots
of the breakdown. -/
def quoteValid (hasKey : Bool) (f : Option FetchResult) (b : Body) : Quote3 :=
  let pickup := b.pickup.getD ""
  let dropoff := b.dropoff.getD ""
  let rkd : ℚ × Option ℤ × String := resolveKm hasKey f pickup dropoff
  let pr := calculatePrice rkd.1 b.pax b.luggage
  { currency := "AUD"
    total := pr.1
    breakdown := { pr.2 with
      distanceKm := rkd.1
      distanceSource := some rkd.2.2
      durationMin := rkd.2.1 }
    pickup := pickup
    dropoff := dropoff
    whenAt := b.whenAt
    pax := b.pax
    luggage := b.luggage }

/-- Route `POST /api/quote` from `part_003` (after the auth middleware):
validates only pickup and dropoff, tries Google, falls back to the table
estimate with source `"rough"`, then prices the trip. -/
def quoteHandler (hasKey : Bool) (f : Option FetchResult) (body : Option Body) : Response3 :=
  let b := body.getD ⟨none, none, none, none, none⟩
  if reqMissing3 b then .err 400 "pickup and dropoff are required"
  else .okQ 200 (quoteValid hasKey f b)

end Part003

namespace Part002

/-- Result of `getDistanceDurationKm`: either a tagged failure reason or a
distance/duration pair. -/
inductive DMOutcome where
  | failure (reason : String)
  | success (distanceKm : ℚ) (durationMin : ℤ)
deriving DecidableEq

/-- Source `getDistanceDurationKm(pickup, dropoff)` from `part_002`.  `f = none`
models a thrown fetch/json error (reason `"exception"`).  Success
additionally requires nonzero `meters` and nonzero `seconds`
(`if (!meters || !seconds) return {ok:false, reason:'missing_values'}`),
and the duration is taken from the static `duration` field only —
`duration_in_traffic` is never consulted. -/
def getDistanceDurationKm (hasKey : Bool) (f : Option FetchResult) : DMOutcome :=
  if !hasKey then .failure "no_key"
  else
    match f with
    | none => .failure "exception"
    | some r =>
      if !r.ok then .failure ("http_" ++ toString r.status)
      else
        match r.data with
        | none => .failure "exception"
        | some data =>
          if data.status != "OK" then
            .failure ("api_" ++ (if data.status == "" then "unknown" else data.status))
          else
            match firstElement data with
            | none => .failure "element_unknown"
            | some el =>
              if el.status != "OK" then
                .failure ("element_" ++ (if el.status == "" then "unknown" else el.status))
              else
                let meters := el.distance.getD 0
                let seconds := el.duration.getD 0
                if meters == 0 || seconds == 0 then .failure "missing_values"
                else .success ((meters : ℚ) / 1000) (round ((seconds : ℚ) / 60))

/-- The `distanceKm`/`distanceSource`/`durationMin` variables of
`part_002`'s route. -/
def resolveKm (hasKey : Bool) (f : Option FetchResult) (pickup dropoff : String) :
    ℚ × String × Option ℤ :=
  match getDistanceDurationKm hasKey f with
  | .success km m => (km, "google", some m)
  | .failure _ => (roughLenKm pickup dropoff, "rough", none)

/-- The body of `part_002`'s `POST /api/quote` after validation (the
validation and pricing lines are identical to `src/server.js`; only the
distance helper differs). -/
def quoteValid (hasKey : Bool) (f : Option FetchResult) (b : Body) : ServerJs.Quote :=
  let base : ℚ := 65
  let perKm : ℚ := 11 / 5
  let perPax : ℚ := 5 * ((paxNum b.pax : ℚ) - 1)
  let perBag : ℚ := 2 * (lugNum b.luggage : ℚ)
  let pickup := b.pickup.getD ""
  let dropoff := b.dropoff.getD ""
  let rkd : ℚ × String × Option ℤ := resolveKm hasKey f pickup dropoff
  { currency := "AUD"
    total := round2 (base + perKm * rkd.1 + perPax + perBag)
    breakdown := ⟨base, perKm, rkd.1, rkd.2.1, perPax, perBag, rkd.2.2⟩
    pickup := pickup
    dropoff := dropoff
    whenAt := b.whenAt.getD ""
    pax := paxNum b.pax
    luggage := lugNum b.luggage }

/-- Route `POST /api/quote` from `part_002`. -/
def quoteHandler (hasKey : Bool) (f : Option FetchResult) (body : Option Body) :
    ServerJs.Response :=
  let b := body.getD ⟨none, none, none, none, none⟩
  if ServerJs.reqMissing b then .err 400 "pickup, dropoff, and when are required"
  else .okQ 200 (quoteValid hasKey f b)

end Part002

namespace Part001

/-- The env-driven `PRICING` coefficients of `part_001`. -/
structure Pricing where
  base : ℚ
  perKm : ℚ
  perMin : ℚ
  perPax : ℚ
  perBag : ℚ
deriving DecidableEq

/-- The env defaults: base 65, perKm 2.2, perMin 0.8, perPax 5, perBag 2. -/
def defaultPricing : Pricing := ⟨65, 11 / 5, 4 / 5, 5, 2⟩

/-- The env-driven `SURCHARGES` of `part_001`.  The after-hours window ends
are minutes of the day (the code parses `"HH:MM"` strings; the defaults
`"22:00"`/`"05:00"` are 1320 and 300). -/
structure Surcharges where
  afterHoursStart : Nat
  afterHoursEnd : Nat
  afterHoursRate : ℚ
  airportFee : ℚ
deriving DecidableEq

/-- The env defaults: window 22:00–05:00, rate 0.10, airport fee 0. -/
def defaultSurcharges : Surcharges := ⟨1320, 300, 1 / 10, 0⟩

/-- One value of the in-memory distance cache: insertion timestamp (ms)
plus the cached `{km, mins}` data. -/
structure CacheEntry where
  t : Nat
  km : ℚ
  mins : ℚ
deriving DecidableEq

/-- The `_cache` Map, as an association list with unique keys. -/
abbrev Cache := List (String × CacheEntry)

/-- Source `_TTL_MS = 12 * 60 * 60 * 1000`. -/
def TTL_MS : Nat := 12 * 60 * 60 * 1000

/-- Source `_key(a, b)`: the lowercased `a||b` string. -/
def cacheKeyOf (a b : String) : String := lowerStr (a ++ "||" ++ b)

/-- Source `Map.prototype.get`. -/
def mapLookup (c : Cache) (k : String) : Option CacheEntry :=
  match c with
  | [] => none
  | (k1, e) :: rest => if k1 == k then some e else mapLookup rest k

/-- Source `Map.prototype.delete`: remove the key from the map. -/
def mapErase (c : Cache) (k : String) : Cache :=
  match c with
  | [] => []
  | (k1, e) :: rest => if k1 == k then mapErase rest k else (k1, e) :: mapErase rest k

/-- Source `Map.prototype.set`: replace the entry at the key, or append it. -/
def mapSet (c : Cache) (k : String) (e : CacheEntry) : Cache :=
  match c with
  | [] => [(k, e)]
  | (k1, e1) :: rest => if k1 == k then (k, e) :: rest else (k1, e1) :: mapSet rest k e

/-- Source `_get(a, b)`: look the normalized key up; a hit older than the TTL is
deleted and misses; returns the cached data together with the cache as left
after the lookup. -/
def cacheGet (c : Cache) (now : Nat) (a b : String) : Option (ℚ × ℚ) × Cache :=
  match mapLookup c (cacheKeyOf a b) with
  | none => (none, c)
  | some e =>
    if now - e.t > TTL_MS then (none, mapErase c (cacheKeyOf a b))
    else (some (e.km, e.mins), c)

/-- Source `_set(a, b, data)`: store `{t: Date.now(), data}` under the normalized
key. -/
def cacheSet (c : Cache) (now : Nat) (a b : String) (km mins : ℚ) : Cache :=
  mapSet c (cacheKeyOf a b) ⟨now, km, mins⟩

/-- What the try block's provider call yields: `some (km, mins)` when
`resp.ok` holds and the first element's status is `"OK"` (with
`km = meters/1000` and `mins = seconds/60` kept fractional, seconds
preferring `duration_in_traffic`), `none` for every failure the catch
absorbs (`f = none` models a thrown fetch/json error). -/
def providerResult (f : Option FetchResult) : Option (ℚ × ℚ) :=
  match f with
  | none => none
  | some r =>
    match r.data with
    | none => none
    | some data =>
      match firstElement data with
      | none => none
      | some el =>
        if r.ok && el.status == "OK" then
          some (((el.distance.getD 0 : ℕ) : ℚ) / 1000,
            (((el.duration_in_traffic.orElse (fun _ => el.duration)).getD 0 : ℕ) : ℚ) / 60)
        else none

/-- The distance resolution of one quote request, after the cache lookup
came up empty or falsy: throw before any fetch when no key is configured,
otherwise call the provider; on success cache the result under the
normalized key, on any caught failure use the length-heuristic rough
estimate with `mins = km * 2` and the label `"fallback"`.  The last field
records whether an outbound provider call was issued. -/
structure Resolved where
  km : ℚ
  mins : ℚ
  source : String
  cache : Cache
  outboundCall : Bool
deriving DecidableEq

/-- The body of the `try`/`catch` around the Distance Matrix call in
`part_001`'s quote route. -/
def attemptProvider (hasKey : Bool) (f : Option FetchResult) (c : Cache) (now : Nat)
    (pickup dropoff : String) : Resolved :=
  if !hasKey then
    let rough := roughLenKm pickup dropoff
    ⟨rough, rough * 2, "fallback", c, false⟩
  else
    match providerResult f with
    | some (km, mins) =>
      ⟨km, mins, "google", cacheSet c now pickup dropoff km mins, true⟩
    | none =>
      let rough := roughLenKm pickup dropoff
      ⟨rough, rough * 2, "fallback", c, true⟩

/-- The distance-resolution block of `part_001`'s quote route: `source`
starts as `'cache'`; a cache hit fills `km`/`mins`; the provider is
consulted exactly when `!km || !mins` (so also when a cached value is 0). -/
def resolveDistance (hasKey : Bool) (f : Option FetchResult) (c : Cache) (now : Nat)
    (pickup dropoff : String) : Resolved :=
  let g := cacheGet c now pickup dropoff
  match g.1 with
  | some (k, m) =>
    if k == 0 || m == 0 then attemptProvider hasKey f g.2 now pickup dropoff
    else ⟨k, m, "cache", g.2, false⟩
  | none => attemptProvider hasKey f g.2 now pickup dropoff

/-- Source `isAfterHours(dtISO)`, with the request timestamp abstracted to its
minutes-of-day (`d.getHours()*60 + d.getMinutes()`): a window with
`start <= end` means `start <= m < end`, otherwise the window wraps past
midnight and means `m >= start || m < end`. -/
def isAfterHours (S : Surcharges) (minsOfDay : Nat) : Bool :=
  if S.afterHoursStart ≤ S.afterHoursEnd then
    decide (S.afterHoursStart ≤ minsOfDay) && decide (minsOfDay < S.afterHoursEnd)
  else
    decide (S.afterHoursStart ≤ minsOfDay) || decide (minsOfDay < S.afterHoursEnd)

/-- Source `looksLikeAirport`: the case-insensitive regex
`/airport|bne|brisbane\s*airport/i`, i.e. the lowered string contains
`"airport"` or `"bne"` (the third alternative implies the first). -/
def looksLikeAirport (s : String) : Bool :=
  listInfixB "airport".data (lowerStr s).data || listInfixB "bne".data (lowerStr s).data

/-- The priced quote of `part_001`: the pre-surcharge subtotal, the two
optional named surcharges as reported in `breakdown.components`
(after-hours rounded to cents, airport flat), and the rounded total. -/
structure Priced where
  subtotal0 : ℚ
  afterHours : Option ℚ
  airport : Option ℚ
  total : ℚ
deriving DecidableEq

/-- The pricing block of `part_001`'s quote route:
`subtotal = base + perKm*km + perMin*mins + perPax*max(0, pax-1)
+ perBag*max(0, luggage)`; inside the configured after-hours window the
exact amount `subtotal * afterHoursRate` is added (and reported rounded);
a nonzero airport fee is added when either location matches the airport
pattern; `total = Math.round(subtotal * 100) / 100`. -/
def priceQuote (P : Pricing) (S : Surcharges) (km mins : ℚ) (pax luggage : Option Nat)
    (whenMins : Nat) (pickup dropoff : String) : Priced :=
  let pPax := P.perPax * max 0 ((paxNum pax : ℚ) - 1)
  let pBag := P.perBag * max 0 ((luggage.getD 0 : ℕ) : ℚ)
  let subtotal0 := P.base + P.perKm * km + P.perMin * mins + pPax + pBag
  let afterTriggered := isAfterHours S whenMins
  let sub1 := if afterTriggered then subtotal0 + subtotal0 * S.afterHoursRate else subtotal0
  let ah : Option ℚ :=
    if afterTriggered then some (round2 (subtotal0 * S.afterHoursRate)) else none
  let airTriggered := !(S.airportFee == 0)
    && (looksLikeAirport pickup || looksLikeAirport dropoff)
  let sub2 := if airTriggered then sub1 + S.airportFee else sub1
  let ap : Option ℚ := if airTriggered then some S.airportFee else none
  ⟨subtotal0, ah, ap, round2 sub2⟩

/-- Holds (`true`) on the failure modes of `part_001`'s provider attempt: no key
configured, or a call whose outcome the catch absorbs. -/
def providerFailed (hasKey : Bool) (f : Option FetchResult) : Bool :=
  !hasKey || (providerResult f).isNone

end Part001

/-! ## General lemmas about the embedded operations -/

/-- Rounding to cents preserves non-negativity. -/
theorem round2_nonneg (q : ℚ) (h : 0 ≤ q) : 0 ≤ round2 q := by
  unfold round2
  have h2 : (0 : ℤ) ≤ round (q * 100) := by
    rw [round_eq]
    exact Int.le_floor.mpr (by positivity)
  positivity

/-- The length-heuristic fallback distance is at least 5 km. -/
theorem roughLenKm_ge (p d : String) : 5 ≤ roughLenKm p d := le_max_left _ _

/-- The length-heuristic fallback distance is at most 45 km. -/
theorem roughLenKm_le (p d : String) : roughLenKm p d ≤ 45 :=
  max_le (by norm_num) (min_le_left _ _)

/-- Lower bound: `Number(pax || 1)` is at least 1. -/
theorem paxNum_ge_one (o : Option Nat) : 1 ≤ paxNum o := by
  cases o with
  | none => exact le_refl 1
  | some n => cases n <;> simp [paxNum]

/-- Unfolding of the validated `src/server.js` quote. -/
theorem ServerJs.quoteValid_eq (hasKey : Bool) (f : Option FetchResult) (b : Body) :
    ServerJs.quoteValid hasKey f b =
      { currency := "AUD"
        total := round2 (65 + 11 / 5 *
          (ServerJs.resolveKm hasKey f (b.pickup.getD "") (b.dropoff.getD "")).1
          + 5 * ((paxNum b.pax : ℚ) - 1) + 2 * (lugNum b.luggage : ℚ))
        breakdown := ⟨65, 11 / 5,
          (ServerJs.resolveKm hasKey f (b.pickup.getD "") (b.dropoff.getD "")).1,
          (ServerJs.resolveKm hasKey f (b.pickup.getD "") (b.dropoff.getD "")).2.1,
          5 * ((paxNum b.pax : ℚ) - 1), 2 * (lugNum b.luggage : ℚ),
          (ServerJs.resolveKm hasKey f (b.pickup.getD "") (b.dropoff.getD "")).2.2⟩
        pickup := b.pickup.getD ""
        dropoff := b.dropoff.getD ""
        whenAt := b.whenAt.getD ""
        pax := paxNum b.pax
        luggage := lugNum b.luggage } := rfl

/-- Inversion of the `src/server.js` handler on success responses. -/
theorem ServerJs.handler_ok (hasKey : Bool) (f : Option FetchResult) (b : Body)
    (q : ServerJs.Quote)
    (h : ServerJs.quoteHandler hasKey f (some b) = .okQ 200 q) :
    q = ServerJs.quoteValid hasKey f b := by
  unfold ServerJs.quoteHandler at h
  simp only [Option.getD_some] at h
  by_cases hm : ServerJs.reqMissing b
  · simp [hm] at h
  · simp [hm] at h
    exact h.symm

/-- A failed provider leaves the `src/server.js` route on the rough path. -/
theorem ServerJs.resolveKm_of_failed (hasKey : Bool) (f : Option FetchResult)
    (p d : String) (hfail : ServerJs.providerFailed hasKey f = true) :
    ServerJs.resolveKm hasKey f p d = (roughLenKm p d, "rough", none) := by
  unfold ServerJs.providerFailed at hfail
  unfold ServerJs.resolveKm
  rcases hdm : ServerJs.getDistanceKmAndMinutes hasKey f with v | v
  · simp
  · rw [hdm] at hfail
    rcases v with _ | ⟨km, m⟩
    · simp
    · simp at hfail

/-- A successful distance helper call never reports a negative distance. -/
theorem ServerJs.getDistance_nonneg (hasKey : Bool) (f : Option FetchResult)
    (km : ℚ) (m : ℤ)
    (h : ServerJs.getDistanceKmAndMinutes hasKey f = .ok (some (km, m))) :
    0 ≤ km := by
  unfold ServerJs.getDistanceKmAndMinutes at h
  simp only [] at h
  repeat' split at h
  all_goals simp at h
  all_goals (rw [← h.1]; positivity)

/-- The `src/server.js` route's resolved distance is never negative. -/
theorem ServerJs.resolveKm_fst_nonneg (hasKey : Bool) (f : Option FetchResult)
    (p d : String) : 0 ≤ (ServerJs.resolveKm hasKey f p d).1 := by
  unfold ServerJs.resolveKm
  rcases hdm : ServerJs.getDistanceKmAndMinutes hasKey f with v | v
  · simpa using le_trans (by norm_num : (0 : ℚ) ≤ 5) (roughLenKm_ge p d)
  · rcases v with _ | ⟨km, m⟩
    · simpa using le_trans (by norm_num : (0 : ℚ) ≤ 5) (roughLenKm_ge p d)
    · simpa using ServerJs.getDistance_nonneg hasKey f km m hdm

/-- A successful distance helper call puts the route on the google path. -/
theorem ServerJs.resolveKm_of_success (hasKey : Bool) (f : Option FetchResult)
    (p d : String) (km : ℚ) (m : ℤ)
    (h : ServerJs.getDistanceKmAndMinutes hasKey f = .ok (some (km, m))) :
    ServerJs.resolveKm hasKey f p d = (km, "google", some m) := by
  unfold ServerJs.resolveKm
  rw [h]

/-- Unfolding of the validated `part_003` quote. -/
theorem Part003.quoteValid3_eq (hasKey : Bool) (f : Option FetchResult) (b : Body) :
    Part003.quoteValid hasKey f b =
      { currency := "AUD"
        total := round2 (65 + 11 / 5 *
          (Part003.resolveKm hasKey f (b.pickup.getD "") (b.dropoff.getD "")).1
          + 5 * ((b.pax.getD 0 : ℕ) : ℚ) + 2 * ((b.luggage.getD 0 : ℕ) : ℚ))
        breakdown := ⟨65, 11 / 5, 5, 2,
          (Part003.resolveKm hasKey f (b.pickup.getD "") (b.dropoff.getD "")).1,
          some (Part003.resolveKm hasKey f (b.pickup.getD "") (b.dropoff.getD "")).2.2,
          (Part003.resolveKm hasKey f (b.pickup.getD "") (b.dropoff.getD "")).2.1⟩
        pickup := b.pickup.getD ""
        dropoff := b.dropoff.getD ""
        whenAt := b.whenAt
        pax := b.pax
        luggage := b.luggage } := rfl

/-- Inversion of the `part_003` handler on success responses. -/
theorem Part003.handler3_ok (hasKey : Bool) (f : Option FetchResult) (b : Body)
    (q : Part003.Quote3)
    (h : Part003.quoteHandler hasKey f (some b) = .okQ 200 q) :
    q = Part003.quoteValid hasKey f b := by
  unfold Part003.quoteHandler at h
  simp only [Option.getD_some] at h
  by_cases hm : Part003.reqMissing3 b
  · simp [hm] at h
  · simp [hm] at h
    exact h.symm

/-- Looking a key up after erasing it misses. -/
theorem Part001.lookup_mapErase_self (c : Part001.Cache) (k : String) :
    Part001.mapLookup (Part001.mapErase c k) k = none := by
  induction c with
  | nil => rfl
  | cons kv rest ih =>
    rcases kv with ⟨k0, e0⟩
    unfold Part001.mapErase
    by_cases hk : (k0 == k) = true
    · simpa [hk] using ih
    · simpa [Part001.mapLookup, hk] using ih

/-- Any entry found after an erase was present before it. -/
theorem Part001.lookup_mapErase (c : Part001.Cache) (k k1 : String)
    (e1 : Part001.CacheEntry)
    (h : Part001.mapLookup (Part001.mapErase c k) k1 = some e1) :
    Part001.mapLookup c k1 = some e1 := by
  induction c with
  | nil => simp [Part001.mapErase, Part001.mapLookup] at h
  | cons kv rest ih =>
    rcases kv with ⟨k0, e0⟩
    unfold Part001.mapErase at h
    by_cases hk : (k0 == k) = true
    · rw [if_pos hk] at h
      unfold Part001.mapLookup
      by_cases hk1 : (k0 == k1) = true
      · exfalso
        have hkk : k = k1 := by
          have h1 := (beq_iff_eq).mp hk
          have h2 := (beq_iff_eq).mp hk1
          rw [← h1, h2]
        rw [← hkk] at h
        rw [Part001.lookup_mapErase_self rest k] at h
        exact Option.noConfusion h
      · rw [if_neg hk1]
        exact ih h
    · rw [if_neg hk] at h
      unfold Part001.mapLookup at h ⊢
      by_cases hk1 : (k0 == k1) = true
      · rwa [if_pos hk1] at h ⊢
      · rw [if_neg hk1] at h ⊢
        exact ih h

/-- Any entry found after a `set` is the new entry or was present before. -/
theorem Part001.lookup_mapSet (c : Part001.Cache) (k : String) (e : Part001.CacheEntry)
    (k1 : String) (e1 : Part001.CacheEntry)
    (h : Part001.mapLookup (Part001.mapSet c k e) k1 = some e1) :
    (k1 = k ∧ e1 = e) ∨ Part001.mapLookup c k1 = some e1 := by
  induction c with
  | nil =>
    unfold Part001.mapSet Part001.mapLookup at h
    by_cases hk1 : (k == k1) = true
    · rw [if_pos hk1] at h
      exact Or.inl ⟨((beq_iff_eq).mp hk1).symm, (Option.some.injEq _ _ ▸ h).symm⟩
    · rw [if_neg hk1] at h
      exact Option.noConfusion h
  | cons kv rest ih =>
    rcases kv with ⟨k0, e0⟩
    unfold Part001.mapSet at h
    by_cases hk : (k0 == k) = true
    · rw [if_pos hk] at h
      unfold Part001.mapLookup at h ⊢
      by_cases hk1 : (k == k1) = true
      · rw [if_pos hk1] at h
        exact Or.inl ⟨((beq_iff_eq).mp hk1).symm, (Option.some.injEq _ _ ▸ h).symm⟩
      · rw [if_neg hk1] at h
        have hk01 : (k0 == k1) = false := by
          rw [beq_eq_false_iff_ne]
          rw [(beq_iff_eq).mp hk]
          exact fun hcontra => hk1 ((beq_iff_eq).mpr hcontra)
        rw [hk01]
        simp only [Bool.false_eq_true, if_false]
        exact Or.inr h
    · rw [if_neg hk] at h
      unfold Part001.mapLookup at h ⊢
      by_cases hk1 : (k0 == k1) = true
      · rw [if_pos hk1] at h ⊢
        exact Or.inr h
      · rw [if_neg hk1] at h ⊢
        exact ih h

/-- Entries surviving the cache lookup (which may expire one entry) were in
the cache before it. -/
theorem Part001.cacheGet_snd (c : Part001.Cache) (now : Nat) (a b : String)
    (k : String) (e : Part001.CacheEntry)
    (h : Part001.mapLookup (Part001.cacheGet c now a b).2 k = some e) :
    Part001.mapLookup c k = some e := by
  unfold Part001.cacheGet at h
  split at h
  · exact h
  · split at h
    · exact Part001.lookup_mapErase c _ k e h
    · exact h

/-- A cache hit leaves the cache unchanged. -/
theorem Part001.cacheGet_hit_snd (c : Part001.Cache) (now : Nat) (a b : String)
    (x : ℚ × ℚ) (h : (Part001.cacheGet c now a b).1 = some x) :
    (Part001.cacheGet c now a b).2 = c := by
  unfold Part001.cacheGet at h ⊢
  cases hlk : Part001.mapLookup c (Part001.cacheKeyOf a b) with
  | none => simp [hlk]
  | some e =>
    simp only [hlk] at h ⊢
    by_cases hex : now - e.t > Part001.TTL_MS
    · simp [hex] at h
    · simp [hex]

/-- An expired entry misses. -/
theorem Part001.cacheGet_expired (c : Part001.Cache) (now : Nat) (a b : String)
    (e : Part001.CacheEntry)
    (hl : Part001.mapLookup c (Part001.cacheKeyOf a b) = some e)
    (hex : now - e.t > Part001.TTL_MS) :
    (Part001.cacheGet c now a b).1 = none := by
  unfold Part001.cacheGet
  rw [hl]
  simp [hex]

/-- With a key configured, the provider attempt always issues the outbound
call, whatever its outcome. -/
theorem Part001.attempt_outbound (f : Option FetchResult) (c : Part001.Cache)
    (now : Nat) (p d : String) :
    (Part001.attemptProvider true f c now p d).outboundCall = true := by
  unfold Part001.attemptProvider
  rcases h : Part001.providerResult f with _ | ⟨km, mins⟩ <;> simp [h]

/-- A failed provider attempt yields the rough fallback, labelled
`"fallback"`, without touching the cache; the call went out iff a key was
configured. -/
theorem Part001.attempt_of_failed (hasKey : Bool) (f : Option FetchResult)
    (c : Part001.Cache) (now : Nat) (p d : String)
    (h : Part001.providerFailed hasKey f = true) :
    Part001.attemptProvider hasKey f c now p d =
      ⟨roughLenKm p d, roughLenKm p d * 2, "fallback", c, hasKey⟩ := by
  unfold Part001.providerFailed at h
  unfold Part001.attemptProvider
  cases hasKey with
  | false => simp
  | true =>
    simp only [Bool.not_true, Bool.false_or] at h
    rw [Option.isNone_iff_eq_none] at h
    simp [h]

/-- A cache miss sends the route to the provider attempt. -/
theorem Part001.resolve_of_miss (hasKey : Bool) (f : Option FetchResult)
    (c : Part001.Cache) (now : Nat) (p d : String)
    (h : (Part001.cacheGet c now p d).1 = none) :
    Part001.resolveDistance hasKey f c now p d =
      Part001.attemptProvider hasKey f (Part001.cacheGet c now p d).2 now p d := by
  unfold Part001.resolveDistance
  simp only []
  rw [h]

/-! ## The claims -/

/-- Claim C1, counterexample.  For the valid request (pickup
`"Brisbane Airport"`, dropoff `"South Bank"`, `when` present, pax 2,
luggage 1; provider unavailable), `src/server.js` returns total 107.2,
while `round2` of the sum of the numeric components of the returned
breakdown (base 65, perKm 2.2, distanceKm 16, perPax 5, perBag 2;
durationMin null) is 90.2: the breakdown stores the per-km *rate* and the
distance as separate numbers, so its numeric fields do not sum to the
total. -/
theorem c1_counterexample :
    ServerJs.quoteHandler false none (some ⟨some "Brisbane Airport", some "South Bank",
        some "2025-10-15T10:30", some 2, some 1⟩) =
      .okQ 200 ⟨"AUD", 536 / 5, ⟨65, 11 / 5, 16, "rough", 5, 2, none⟩,
        "Brisbane Airport", "South Bank", "2025-10-15T10:30", 2, 1⟩ ∧
    (536 / 5 : ℚ) ≠ round2 (65 + 11 / 5 + 16 + 5 + 2) := by
  constructor
  · have h1 : "Brisbane Airport".length = 16 := by decide
    have h2 : "South Bank".length = 10 := by decide
    norm_num +decide [ServerJs.quoteHandler, ServerJs.quoteValid, ServerJs.reqMissing,
      ServerJs.resolveKm, ServerJs.getDistanceKmAndMinutes, strFalsy, paxNum, lugNum,
      roughLenKm, round2, round_eq, h1, h2]
  · norm_num [round2, round_eq]

/-- Claim C1 (amended).  For every valid quote request, the returned total
equals `round2` of the sum of the breakdown's *charge* components: the base
fee, the distance charge `perKm * distanceKm`, and the passenger and bag
charges — which in `src/server.js` are the breakdown's `perPax`/`perBag`
fields themselves, and in `part_003` are its `perPax`/`perBag` rates
multiplied by the echoed pax/luggage counts. -/
theorem c1_total_round2_of_charges (hasKey : Bool) (f : Option FetchResult) (b : Body)
    (q : ServerJs.Quote) (q3 : Part003.Quote3)
    (h : ServerJs.quoteHandler hasKey f (some b) = .okQ 200 q)
    (h3 : Part003.quoteHandler hasKey f (some b) = .okQ 200 q3) :
    q.total = round2 (q.breakdown.base + q.breakdown.perKm * q.breakdown.distanceKm
      + q.breakdown.perPax + q.breakdown.perBag) ∧
    q3.total = round2 (q3.breakdown.base + q3.breakdown.perKm * q3.breakdown.distanceKm
      + q3.breakdown.perPax * ((q3.pax.getD 0 : ℕ) : ℚ)
      + q3.breakdown.perBag * ((q3.luggage.getD 0 : ℕ) : ℚ)) := by
  have hq := ServerJs.handler_ok hasKey f b q h
  have hq3 := Part003.handler3_ok hasKey f b q3 h3
  subst hq
  subst hq3
  rw [ServerJs.quoteValid_eq, Part003.quoteValid3_eq]
  constructor <;> simp

/-- Claim C1, witness.  The amended theorem at the concrete request of the
counterexample, for both variants. -/
theorem c1_total_round2_of_charges_witness :
    ServerJs.quoteHandler false none (some ⟨some "Brisbane Airport", some "South Bank",
        some "2025-10-15T10:30", some 2, some 1⟩) =
      .okQ 200 ⟨"AUD", 536 / 5, ⟨65, 11 / 5, 16, "rough", 5, 2, none⟩,
        "Brisbane Airport", "South Bank", "2025-10-15T10:30", 2, 1⟩ ∧
    Part003.quoteHandler false none (some ⟨some "Brisbane Airport", some "South Bank",
        some "2025-10-15T10:30", some 2, some 1⟩) =
      .okQ 200 ⟨"AUD", 561 / 5, ⟨65, 11 / 5, 5, 2, 16, some "rough", none⟩,
        "Brisbane Airport", "South Bank", some "2025-10-15T10:30", some 2, some 1⟩ ∧
    (536 / 5 : ℚ) = round2 (65 + 11 / 5 * 16 + 5 + 2) ∧
    (561 / 5 : ℚ) = round2 (65 + 11 / 5 * 16 + 5 * ((2 : ℕ) : ℚ) + 2 * ((1 : ℕ) : ℚ)) := by
  have h1 : "Brisbane Airport".length = 16 := by decide
  have h2 : "South Bank".length = 10 := by decide
  have h : ServerJs.quoteHandler false none (some ⟨some "Brisbane Airport", some "South Bank",
      some "2025-10-15T10:30", some 2, some 1⟩) =
      .okQ 200 ⟨"AUD", 536 / 5, ⟨65, 11 / 5, 16, "rough", 5, 2, none⟩,
        "Brisbane Airport", "South Bank", "2025-10-15T10:30", 2, 1⟩ := by
    norm_num +decide [ServerJs.quoteHandler, ServerJs.quoteValid, ServerJs.reqMissing,
      ServerJs.resolveKm, ServerJs.getDistanceKmAndMinutes, strFalsy, paxNum, lugNum,
      roughLenKm, round2, round_eq, h1, h2]
  have h3 : Part003.quoteHandler false none (some ⟨some "Brisbane Airport", some "South Bank",
      some "2025-10-15T10:30", some 2, some 1⟩) =
      .okQ 200 ⟨"AUD", 561 / 5, ⟨65, 11 / 5, 5, 2, 16, some "rough", none⟩,
        "Brisbane Airport", "South Bank", some "2025-10-15T10:30", some 2, some 1⟩ := by
    norm_num +decide [Part003.quoteHandler, Part003.quoteValid, Part003.reqMissing3,
      Part003.resolveKm, Part003.getGoogleDistance, Part003.roughDistanceKm,
      Part003.calculatePrice, strFalsy, lowerStr, trimStr, round2, round_eq]
  have main := c1_total_round2_of_charges false none _ _ _ h h3
  refine ⟨h, h3, ?_, ?_⟩
  · simpa using main.1
  · simpa using main.2

/-- Claim C2, counterexample.  `part_003` does not validate `when`: the
request `{pickup: "a", dropoff: "b"}` with no `when` field gets a 200 quote
(with `when` echoed as absent), not a 400 error. -/
theorem c2_counterexample :
    Part003.quoteHandler false none (some ⟨some "a", some "b", none, none, none⟩) =
      .okQ 200 ⟨"AUD", 457 / 5, ⟨65, 11 / 5, 5, 2, 12, some "rough", none⟩,
        "a", "b", none, none, none⟩ ∧
    (Part003.quoteHandler false none
      (some ⟨some "a", some "b", none, none, none⟩)).statusOf ≠ 400 := by
  have h : Part003.quoteHandler false none (some ⟨some "a", some "b", none, none, none⟩) =
      .okQ 200 ⟨"AUD", 457 / 5, ⟨65, 11 / 5, 5, 2, 12, some "rough", none⟩,
        "a", "b", none, none, none⟩ := by
    norm_num +decide [Part003.quoteHandler, Part003.quoteValid, Part003.reqMissing3,
      Part003.resolveKm, Part003.getGoogleDistance, Part003.roughDistanceKm,
      Part003.calculatePrice, strFalsy, lowerStr, trimStr, round2, round_eq]
  refine ⟨h, ?_⟩
  rw [h]
  decide

/-- Claim C2 (amended).  `src/server.js` answers 400, with a message naming
pickup, dropoff and `when`, whenever any of the three is missing or empty,
and on a request with no body at all; `part_003` validates only pickup and
dropoff (its 400 names those two; a missing `when` is accepted), and also
answers 400 on a body-less request.  Neither handler computes a quote in
those cases. -/
theorem c2_missing_fields_400 (hasKey : Bool) (f : Option FetchResult) (b : Body) :
    ((strFalsy b.pickup || strFalsy b.dropoff || strFalsy b.whenAt) = true →
      ServerJs.quoteHandler hasKey f (some b) =
        .err 400 "pickup, dropoff, and when are required") ∧
    ServerJs.quoteHandler hasKey f none =
      .err 400 "pickup, dropoff, and when are required" ∧
    ((strFalsy b.pickup || strFalsy b.dropoff) = true →
      Part003.quoteHandler hasKey f (some b) =
        .err 400 "pickup and dropoff are required") ∧
    Part003.quoteHandler hasKey f none = .err 400 "pickup and dropoff are required" := by
  refine ⟨?_, ?_, ?_, ?_⟩
  · intro h
    simp [ServerJs.quoteHandler, ServerJs.reqMissing, h]
  · simp [ServerJs.quoteHandler, ServerJs.reqMissing, strFalsy]
  · intro h
    simp [Part003.quoteHandler, Part003.reqMissing3, h]
  · simp [Part003.quoteHandler, Part003.reqMissing3, strFalsy]

/-- Claim C2, witness.  The amended theorem at a request with an empty
pickup. -/
theorem c2_missing_fields_400_witness :
    ServerJs.quoteHandler false none (some ⟨some "", some "b", some "w", none, none⟩) =
      .err 400 "pickup, dropoff, and when are required" ∧
    Part003.quoteHandler false none (some ⟨some "", some "b", some "w", none, none⟩) =
      .err 400 "pickup and dropoff are required" := by
  have main := c2_missing_fields_400 false none ⟨some "", some "b", some "w", none, none⟩
  exact ⟨main.1 (by decide), main.2.2.1 (by decide)⟩

/-- Claim C3, counterexample.  In the caching variant (`part_001`) the
fallback path labels the source `"fallback"`, not `"rough"`: with no
provider key, an empty cache and the request `"a" → "b"`, the resolved
source is `"fallback"`. -/
theorem c3_counterexample :
    Part001.resolveDistance false none [] 0 "a" "b" = ⟨10, 20, "fallback", [], false⟩ ∧
    ("fallback" : String) ≠ "rough" := by
  constructor
  · have h1 : "a".length = 1 := by decide
    have h2 : "b".length = 1 := by decide
    norm_num +decide [Part001.resolveDistance, Part001.cacheGet, Part001.mapLookup,
      Part001.cacheKeyOf, Part001.attemptProvider, roughLenKm, lowerStr, h1, h2]
  · decide

/-- Claim C3 (amended).  For every valid request, when the distance provider
is unavailable or fails (no key, network error, timeout, non-OK status,
missing distance), the quote still succeeds with status 200 and a fallback
distance in [5, 45] km, and the failure is not surfaced as an error; the
source label is `"rough"` in `src/server.js` but `"fallback"` in the
caching variant `part_001` (on a cache miss there). -/
theorem c3_provider_failure_fallback (hasKey : Bool) (f : Option FetchResult) (b : Body)
    (c : Part001.Cache) (now : Nat) (p d : String) :
    (ServerJs.providerFailed hasKey f = true → ServerJs.reqMissing b = false →
      ServerJs.quoteHandler hasKey f (some b) =
        .okQ 200 (ServerJs.quoteValid hasKey f b) ∧
      (ServerJs.quoteValid hasKey f b).breakdown.distanceSource = "rough" ∧
      5 ≤ (ServerJs.quoteValid hasKey f b).breakdown.distanceKm ∧
      (ServerJs.quoteValid hasKey f b).breakdown.distanceKm ≤ 45) ∧
    (Part001.providerFailed hasKey f = true → (Part001.cacheGet c now p d).1 = none →
      (Part001.resolveDistance hasKey f c now p d).source = "fallback" ∧
      5 ≤ (Part001.resolveDistance hasKey f c now p d).km ∧
      (Part001.resolveDistance hasKey f c now p d).km ≤ 45) := by
  constructor
  · intro hfail hval
    refine ⟨by simp [ServerJs.quoteHandler, hval], ?_, ?_, ?_⟩
    · rw [ServerJs.quoteValid_eq]
      simp only
      rw [ServerJs.resolveKm_of_failed hasKey f _ _ hfail]
    · rw [ServerJs.quoteValid_eq]
      simp only
      rw [ServerJs.resolveKm_of_failed hasKey f _ _ hfail]
      exact roughLenKm_ge _ _
    · rw [ServerJs.quoteValid_eq]
      simp only
      rw [ServerJs.resolveKm_of_failed hasKey f _ _ hfail]
      exact roughLenKm_le _ _
  · intro hfail hmiss
    rw [Part001.resolve_of_miss hasKey f c now p d hmiss,
      Part001.attempt_of_failed hasKey f _ now p d hfail]
    exact ⟨rfl, roughLenKm_ge p d, roughLenKm_le p d⟩

/-- Claim C3, witness.  The amended theorem with no provider key, a valid
request and an empty cache. -/
theorem c3_provider_failure_fallback_witness :
    ServerJs.quoteHandler false none (some ⟨some "a", some "b", some "w", none, none⟩) =
      .okQ 200 (ServerJs.quoteValid false none ⟨some "a", some "b", some "w", none, none⟩) ∧
    (ServerJs.quoteValid false none
      ⟨some "a", some "b", some "w", none, none⟩).breakdown.distanceSource = "rough" ∧
    (Part001.resolveDistance false none [] 0 "a" "b").source = "fallback" ∧
    5 ≤ (Part001.resolveDistance false none [] 0 "a" "b").km := by
  have main := c3_provider_failure_fallback false none
    ⟨some "a", some "b", some "w", none, none⟩ [] 0 "a" "b"
  have s := main.1 (by decide) (by decide)
  have t := main.2 (by decide) (by decide)
  exact ⟨s.1, s.2.1, t.1, t.2.1⟩

/-- Claim C4, counterexample.  In `part_003` the passenger charge is
`perPax * pax`, not `perPax * max(0, pax - 1)`: at 12 km a request with
`pax = 1` is priced 96.40, which is 5 more than the surcharge-free price
91.40 — a single passenger does incur a passenger surcharge. -/
theorem c4_counterexample :
    (Part003.calculatePrice 12 (some 1) (some 0)).1 = 482 / 5 ∧
    round2 (65 + 11 / 5 * 12) = 457 / 5 ∧
    (482 / 5 : ℚ) ≠ 457 / 5 := by
  refine ⟨?_, ?_, by norm_num⟩
  · norm_num [Part003.calculatePrice, round2, round_eq]
  · norm_num [round2, round_eq]

/-- Claim C4 (amended).  In `src/server.js` the per-passenger charge is
`5 * max(0, pax - 1)` (pax defaulting to 1 when absent or 0): a `pax = 1`
request incurs no passenger surcharge and the surcharge is never negative.
In `part_003` the charge is `perPax * pax` instead, so `pax = 1` pays the
full `perPax`. -/
theorem c4_per_passenger_charge (hasKey : Bool) (f : Option FetchResult) (b : Body)
    (km : ℚ) :
    (ServerJs.quoteValid hasKey f b).breakdown.perPax
      = 5 * max 0 (((b.pax.getD 1 : ℕ) : ℚ) - 1) ∧
    (b.pax = some 1 → (ServerJs.quoteValid hasKey f b).breakdown.perPax = 0) ∧
    0 ≤ (ServerJs.quoteValid hasKey f b).breakdown.perPax ∧
    (Part003.calculatePrice km b.pax b.luggage).1
      = round2 (65 + 11 / 5 * km + 5 * ((b.pax.getD 0 : ℕ) : ℚ)
          + 2 * ((b.luggage.getD 0 : ℕ) : ℚ)) := by
  have hmain : (ServerJs.quoteValid hasKey f b).breakdown.perPax
      = 5 * max 0 (((b.pax.getD 1 : ℕ) : ℚ) - 1) := by
    rw [ServerJs.quoteValid_eq]
    simp only
    rcases b.pax with _ | n
    · norm_num [paxNum]
    · rcases n with _ | n
      · norm_num [paxNum]
      · have hn : (0 : ℚ) ≤ ((n + 1 : ℕ) : ℚ) - 1 := by
          push_cast
          linarith [Nat.cast_nonneg (α := ℚ) n]
        simp only [paxNum, Option.getD_some]
        rw [max_eq_right hn]
  refine ⟨hmain, ?_, ?_, rfl⟩
  · intro hp
    rw [hmain, hp]
    norm_num
  · rw [hmain]
    exact mul_nonneg (by norm_num) (le_max_left 0 _)

/-- Claim C4, witness.  The amended theorem at a `pax = 1` request. -/
theorem c4_per_passenger_charge_witness :
    (ServerJs.quoteValid false none
      ⟨some "a", some "b", some "w", some 1, none⟩).breakdown.perPax = 0 ∧
    (Part003.calculatePrice 12 (some 1) none).1
      = round2 (65 + 11 / 5 * 12 + 5 * ((1 : ℕ) : ℚ) + 2 * ((0 : ℕ) : ℚ)) := by
  have main := c4_per_passenger_charge false none
    ⟨some "a", some "b", some "w", some 1, none⟩ 12
  exact ⟨main.2.1 rfl, main.2.2.2⟩

/-- A cache hit with falsy (zero) data still sends the route to the
provider attempt. -/
theorem Part001.resolve_of_falsy (hasKey : Bool) (f : Option FetchResult)
    (c : Part001.Cache) (now : Nat) (p d : String) (k0 m0 : ℚ)
    (h : (Part001.cacheGet c now p d).1 = some (k0, m0))
    (hf : (k0 == 0 || m0 == 0) = true) :
    Part001.resolveDistance hasKey f c now p d =
      Part001.attemptProvider hasKey f (Part001.cacheGet c now p d).2 now p d := by
  unfold Part001.resolveDistance
  simp only []
  rw [h]
  simp [hf]

/-- A cache hit with nonzero data short-circuits the route: cached values,
source `"cache"`, no cache change, no outbound call. -/
theorem Part001.resolve_of_hit (hasKey : Bool) (f : Option FetchResult)
    (c : Part001.Cache) (now : Nat) (p d : String) (k0 m0 : ℚ)
    (h : (Part001.cacheGet c now p d).1 = some (k0, m0))
    (hf : (k0 == 0 || m0 == 0) = false) :
    Part001.resolveDistance hasKey f c now p d = ⟨k0, m0, "cache", c, false⟩ := by
  unfold Part001.resolveDistance
  simp only []
  rw [h, Part001.cacheGet_hit_snd c now p d _ h]
  simp [hf]

/-- Entries in the cache after a provider attempt either were already there
or are the provider's successful result stored under the normalized key. -/
theorem Part001.attempt_cache_lookup (hasKey : Bool) (f : Option FetchResult)
    (c : Part001.Cache) (now : Nat) (p d : String) (k : String)
    (e : Part001.CacheEntry)
    (h : Part001.mapLookup (Part001.attemptProvider hasKey f c now p d).cache k = some e) :
    Part001.mapLookup c k = some e ∨
      ((Part001.attemptProvider hasKey f c now p d).source = "google" ∧
        k = Part001.cacheKeyOf p d ∧ e.t = now ∧
        Part001.providerResult f = some (e.km, e.mins)) := by
  unfold Part001.attemptProvider at h
  cases hasKey with
  | false =>
    simp only [Bool.not_false, if_pos] at h
    exact Or.inl h
  | true =>
    rcases hpr : Part001.providerResult f with _ | ⟨km, mins⟩
    · simp only [hpr, Bool.not_true, Bool.false_eq_true, if_false] at h
      exact Or.inl h
    · simp only [hpr, Bool.not_true, Bool.false_eq_true, if_false] at h
      rcases Part001.lookup_mapSet c (Part001.cacheKeyOf p d) ⟨now, km, mins⟩ k e h with
        h1 | h1
      · rcases h1 with ⟨hk1, he1⟩
        subst he1
        refine Or.inr ⟨?_, hk1, rfl, ?_⟩
        · unfold Part001.attemptProvider
          simp [hpr]
        · rfl
      · exact Or.inl h1

/-- Claim C5, counterexample.  `part_002` converts the *static* duration, not
the with-traffic one: on a payload carrying `duration = 600 s` and
`duration_in_traffic = 1200 s` it reports 10 minutes, while the
traffic-preferring conversion the claim specifies gives 20. -/
theorem c5_counterexample :
    Part002.getDistanceDurationKm true
        (some ⟨true, 200, some ⟨"OK", [[⟨"OK", some 10000, some 600, some 1200⟩]]⟩⟩) =
      .success 10 10 ∧
    round (((1200 : ℕ) : ℚ) / 60) = (20 : ℤ) ∧ (10 : ℤ) ≠ 20 := by
  refine ⟨?_, ?_, by decide⟩
  · norm_num +decide [Part002.getDistanceDurationKm, firstElement, round2, round_eq]
  · norm_num [round_eq]

/-- Claim C5 (amended).  On a provider response with top-level status OK, an
OK first element and a distance value of `m` meters, `src/server.js`
returns `distanceKm = m/1000` with minutes preferring
`duration_in_traffic` over `duration`, and its route labels the source
`"google"`.  `part_002` returns the same `m/1000` but converts only the
static `duration`, and additionally requires both `m` and the duration
seconds to be nonzero. -/
theorem c5_provider_success_mapping (r : FetchResult) (data : DMData) (el : DMElement)
    (m : ℕ) (b : Body)
    (hok : r.ok = true) (hdata : r.data = some data) (hst : data.status = "OK")
    (hel : firstElement data = some el) (hest : el.status = "OK")
    (hdist : el.distance = some m) :
    ServerJs.getDistanceKmAndMinutes true (some r) =
      .ok (some ((m : ℚ) / 1000,
        round ((((el.duration_in_traffic.orElse (fun _ => el.duration)).getD 0 : ℕ) : ℚ)
          / 60))) ∧
    (ServerJs.quoteValid true (some r) b).breakdown.distanceSource = "google" ∧
    (ServerJs.quoteValid true (some r) b).breakdown.distanceKm = (m : ℚ) / 1000 ∧
    (m ≠ 0 → el.duration.getD 0 ≠ 0 →
      Part002.getDistanceDurationKm true (some r) =
        .success ((m : ℚ) / 1000) (round (((el.duration.getD 0 : ℕ) : ℚ) / 60))) := by
  have hsrv : ServerJs.getDistanceKmAndMinutes true (some r) =
      .ok (some ((m : ℚ) / 1000,
        round ((((el.duration_in_traffic.orElse (fun _ => el.duration)).getD 0 : ℕ) : ℚ)
          / 60))) := by
    unfold ServerJs.getDistanceKmAndMinutes ServerJs.fetchJsonWithTimeout
    simp [hok, hdata, hst, hel, hest, hdist]
  refine ⟨hsrv, ?_, ?_, ?_⟩
  · rw [ServerJs.quoteValid_eq]
    simp only
    rw [ServerJs.resolveKm_of_success true (some r) _ _ _ _ hsrv]
  · rw [ServerJs.quoteValid_eq]
    simp only
    rw [ServerJs.resolveKm_of_success true (some r) _ _ _ _ hsrv]
  · intro hm hd
    unfold Part002.getDistanceDurationKm
    simp [hok, hdata, hst, hel, hest, hdist, hm, hd]

/-- Claim C5, witness.  The amended theorem on the concrete fixture payload
(10000 m, 600 s static, 1200 s with traffic). -/
theorem c5_provider_success_mapping_witness :
    ServerJs.getDistanceKmAndMinutes true
        (some ⟨true, 200, some ⟨"OK", [[⟨"OK", some 10000, some 600, some 1200⟩]]⟩⟩) =
      .ok (some (10, 20)) ∧
    (ServerJs.quoteValid true
        (some ⟨true, 200, some ⟨"OK", [[⟨"OK", some 10000, some 600, some 1200⟩]]⟩⟩)
        ⟨some "a", some "b", some "w", none, none⟩).breakdown.distanceSource = "google" ∧
    Part002.getDistanceDurationKm true
        (some ⟨true, 200, some ⟨"OK", [[⟨"OK", some 10000, some 600, some 1200⟩]]⟩⟩) =
      .success 10 10 := by
  have main := c5_provider_success_mapping
    ⟨true, 200, some ⟨"OK", [[⟨"OK", some 10000, some 600, some 1200⟩]]⟩⟩
    ⟨"OK", [[⟨"OK", some 10000, some 600, some 1200⟩]]⟩
    ⟨"OK", some 10000, some 600, some 1200⟩ 10000
    ⟨some "a", some "b", some "w", none, none⟩ rfl rfl rfl rfl rfl rfl
  refine ⟨?_, main.2.1, ?_⟩
  · rw [main.1]
    norm_num [round_eq]
  · rw [main.2.2.2 (by decide) (by decide)]
    norm_num [round_eq]

/-- Claim C6, counterexample.  An element-OK payload with *no distance value*
is still cached by `part_001` (as `km = 0`); a second request for the same
normalized pair 1 ms later finds the entry, but the `!km` falsiness test
defeats the cache: an outbound call is issued and the source is not
`"cache"`.  The claim's "no outbound call and source cache within the TTL"
therefore fails. -/
theorem c6_counterexample :
    Part001.resolveDistance true
        (some ⟨true, 200, some ⟨"OK", [[⟨"OK", none, some 300, none⟩]]⟩⟩) [] 0 "A" "B" =
      ⟨0, 5, "google", [("a||b", ⟨0, 0, 5⟩)], true⟩ ∧
    Part001.resolveDistance true none [("a||b", ⟨0, 0, 5⟩)] 1 "A" "B" =
      ⟨10, 20, "fallback", [("a||b", ⟨0, 0, 5⟩)], true⟩ ∧
    ("fallback" : String) ≠ "cache" := by
  refine ⟨?_, ?_, by decide⟩
  · norm_num +decide [Part001.resolveDistance, Part001.cacheGet, Part001.mapLookup,
      Part001.cacheKeyOf, Part001.attemptProvider, Part001.providerResult,
      Part001.cacheSet, Part001.mapSet, firstElement, lowerStr]
  · have h1 : "A".length = 1 := by decide
    have h2 : "B".length = 1 := by decide
    norm_num +decide [Part001.resolveDistance, Part001.cacheGet, Part001.mapLookup,
      Part001.cacheKeyOf, Part001.attemptProvider, Part001.providerResult,
      Part001.TTL_MS, roughLenKm, lowerStr, h1, h2]

/-- Claim C6 (amended).  In the caching variant: (i) every cache entry after
a request either predates it or is the provider's successful result stored
under the normalized key with the current timestamp — fallback estimates
are never stored; (ii) a second request for the same normalized pair
within the 12-hour TTL finds the entry and, *provided the cached distance
and duration are nonzero*, issues no outbound call and reports source
`"cache"`; (iii) once the entry has outlived the TTL, a request (with a
provider key configured) issues a new outbound call. -/
theorem c6_cache_discipline (hasKey : Bool) (f : Option FetchResult) (c : Part001.Cache)
    (now : Nat) (p d : String) (k : String) (e : Part001.CacheEntry) (kq mq : ℚ)
    (eo : Part001.CacheEntry) :
    (Part001.mapLookup (Part001.resolveDistance hasKey f c now p d).cache k = some e →
      Part001.mapLookup c k = some e ∨
        ((Part001.resolveDistance hasKey f c now p d).source = "google" ∧
          k = Part001.cacheKeyOf p d ∧ e.t = now ∧
          Part001.providerResult f = some (e.km, e.mins))) ∧
    ((Part001.cacheGet c now p d).1 = some (kq, mq) → kq ≠ 0 → mq ≠ 0 →
      Part001.resolveDistance hasKey f c now p d = ⟨kq, mq, "cache", c, false⟩) ∧
    (Part001.mapLookup c (Part001.cacheKeyOf p d) = some eo →
      now - eo.t > Part001.TTL_MS → hasKey = true →
      (Part001.resolveDistance hasKey f c now p d).outboundCall = true) := by
  refine ⟨?_, ?_, ?_⟩
  · intro h
    rcases hc : (Part001.cacheGet c now p d).1 with _ | ⟨k0, m0⟩
    · rw [Part001.resolve_of_miss hasKey f c now p d hc] at h ⊢
      rcases Part001.attempt_cache_lookup hasKey f _ now p d k e h with h1 | h1
      · exact Or.inl (Part001.cacheGet_snd c now p d k e h1)
      · exact Or.inr h1
    · by_cases hf0 : (k0 == 0 || m0 == 0) = true
      · rw [Part001.resolve_of_falsy hasKey f c now p d k0 m0 hc hf0] at h ⊢
        rcases Part001.attempt_cache_lookup hasKey f _ now p d k e h with h1 | h1
        · exact Or.inl (Part001.cacheGet_snd c now p d k e h1)
        · exact Or.inr h1
      · rw [Part001.resolve_of_hit hasKey f c now p d k0 m0 hc
          (Bool.not_eq_true _ ▸ hf0)] at h ⊢
        exact Or.inl h
  · intro hget hk hm
    have hf0 : (kq == 0 || mq == 0) = false := by
      simp [beq_eq_false_iff_ne, hk, hm]
    exact Part001.resolve_of_hit hasKey f c now p d kq mq hget hf0
  · intro hl hex hkey
    subst hkey
    have hmiss := Part001.cacheGet_expired c now p d eo hl hex
    rw [Part001.resolve_of_miss true f c now p d hmiss]
    exact Part001.attempt_outbound f _ now p d

/-- Claim C6, witness.  The amended theorem exercised concretely: a
successful 10 km / 10 min provider result is stored under `"a||b"` at time
0; a cache hit with nonzero data at the same key short-circuits; an entry
aged past the TTL triggers a fresh outbound call. -/
theorem c6_cache_discipline_witness :
    (Part001.mapLookup ([] : Part001.Cache) "a||b" =
        some (⟨0, 10, 10⟩ : Part001.CacheEntry) ∨
      ((Part001.resolveDistance true
          (some ⟨true, 200, some ⟨"OK", [[⟨"OK", some 10000, some 600, none⟩]]⟩⟩)
          [] 0 "A" "B").source = "google" ∧
        "a||b" = Part001.cacheKeyOf "A" "B" ∧
        (⟨0, 10, 10⟩ : Part001.CacheEntry).t = 0 ∧
        Part001.providerResult
            (some ⟨true, 200, some ⟨"OK", [[⟨"OK", some 10000, some 600, none⟩]]⟩⟩) =
          some ((⟨0, 10, 10⟩ : Part001.CacheEntry).km,
            (⟨0, 10, 10⟩ : Part001.CacheEntry).mins))) ∧
    Part001.resolveDistance true none [("a||b", ⟨0, 16, 32⟩)] 5 "A" "B" =
      ⟨16, 32, "cache", [("a||b", ⟨0, 16, 32⟩)], false⟩ ∧
    (Part001.resolveDistance true none [("a||b", ⟨0, 16, 32⟩)] 43200001 "A" "B").outboundCall
      = true := by
  refine ⟨?_, ?_, ?_⟩
  · refine (c6_cache_discipline true
      (some ⟨true, 200, some ⟨"OK", [[⟨"OK", some 10000, some 600, none⟩]]⟩⟩)
      [] 0 "A" "B" "a||b" ⟨0, 10, 10⟩ 0 0 ⟨0, 0, 0⟩).1 ?_
    norm_num +decide [Part001.resolveDistance, Part001.cacheGet, Part001.mapLookup,
      Part001.cacheKeyOf, Part001.attemptProvider, Part001.providerResult,
      Part001.cacheSet, Part001.mapSet, firstElement, lowerStr]
  · refine (c6_cache_discipline true none [("a||b", ⟨0, 16, 32⟩)] 5 "A" "B" "" ⟨0, 0, 0⟩
      16 32 ⟨0, 0, 0⟩).2.1 ?_ (by norm_num) (by norm_num)
    norm_num +decide [Part001.cacheGet, Part001.mapLookup, Part001.cacheKeyOf,
      Part001.TTL_MS, lowerStr]
  · refine (c6_cache_discipline true none [("a||b", ⟨0, 16, 32⟩)] 43200001 "A" "B" ""
      ⟨0, 0, 0⟩ 0 0 ⟨0, 16, 32⟩).2.2 ?_ (by norm_num [Part001.TTL_MS]) rfl
    norm_num +decide [Part001.mapLookup, Part001.cacheKeyOf, lowerStr]

/-- Claim C7 (confirmed).  In `part_001` the after-hours surcharge is applied
exactly when the request's minutes-of-day fall in the configured window —
`start <= m < end` for a plain window, `m >= start || m < end` for one
wrapping past midnight; the amount added is exactly
`subtotal * afterHoursRate` (reported rounded to cents, and, absent an
airport fee, `total = round2(subtotal * (1 + rate))`); outside the window
no after-hours surcharge is present. -/
theorem c7_after_hours_surcharge (P : Part001.Pricing) (S : Part001.Surcharges)
    (km mins : ℚ) (pax luggage : Option Nat) (m : Nat) (p d : String) :
    (Part001.isAfterHours S m = true →
      (Part001.priceQuote P S km mins pax luggage m p d).afterHours =
        some (round2 ((Part001.priceQuote P S km mins pax luggage m p d).subtotal0
          * S.afterHoursRate)) ∧
      (S.airportFee = 0 →
        (Part001.priceQuote P S km mins pax luggage m p d).total =
          round2 ((Part001.priceQuote P S km mins pax luggage m p d).subtotal0
            * (1 + S.afterHoursRate)))) ∧
    (Part001.isAfterHours S m = false →
      (Part001.priceQuote P S km mins pax luggage m p d).afterHours = none) ∧
    (S.afterHoursStart ≤ S.afterHoursEnd →
      (Part001.isAfterHours S m = true ↔
        (S.afterHoursStart ≤ m ∧ m < S.afterHoursEnd))) ∧
    (S.afterHoursEnd < S.afterHoursStart →
      (Part001.isAfterHours S m = true ↔
        (S.afterHoursStart ≤ m ∨ m < S.afterHoursEnd))) := by
  refine ⟨?_, ?_, ?_, ?_⟩
  · intro hah
    constructor
    · unfold Part001.priceQuote
      simp [hah]
    · intro hfee
      unfold Part001.priceQuote
      simp [hah, hfee]
      congr 1
      ring
  · intro hah
    unfold Part001.priceQuote
    simp [hah]
  · intro hle
    unfold Part001.isAfterHours
    rw [if_pos hle]
    simp
  · intro hlt
    unfold Part001.isAfterHours
    rw [if_neg (not_le.mpr hlt)]
    simp

/-- Claim C7, witness.  The default wrapping window 22:00–05:00 at 23:00
(inside) and 10:00 (outside), with the default 0.10 rate. -/
theorem c7_after_hours_surcharge_witness :
    (Part001.priceQuote Part001.defaultPricing Part001.defaultSurcharges 16 32
        (some 2) (some 1) 1380 "x" "y").afterHours =
      some (round2 ((Part001.priceQuote Part001.defaultPricing Part001.defaultSurcharges
        16 32 (some 2) (some 1) 1380 "x" "y").subtotal0
          * Part001.defaultSurcharges.afterHoursRate)) ∧
    (Part001.priceQuote Part001.defaultPricing Part001.defaultSurcharges 16 32
        (some 2) (some 1) 1380 "x" "y").total =
      round2 ((Part001.priceQuote Part001.defaultPricing Part001.defaultSurcharges
        16 32 (some 2) (some 1) 1380 "x" "y").subtotal0
          * (1 + Part001.defaultSurcharges.afterHoursRate)) ∧
    (Part001.priceQuote Part001.defaultPricing Part001.defaultSurcharges 16 32
        (some 2) (some 1) 600 "x" "y").afterHours = none ∧
    (Part001.isAfterHours Part001.defaultSurcharges 1380 = true ↔
      (Part001.defaultSurcharges.afterHoursStart ≤ 1380 ∨
        1380 < Part001.defaultSurcharges.afterHoursEnd)) := by
  have mainIn := c7_after_hours_surcharge Part001.defaultPricing Part001.defaultSurcharges
    16 32 (some 2) (some 1) 1380 "x" "y"
  have mainOut := c7_after_hours_surcharge Part001.defaultPricing Part001.defaultSurcharges
    16 32 (some 2) (some 1) 600 "x" "y"
  have hin := mainIn.1 (by decide)
  exact ⟨hin.1, hin.2 rfl, mainOut.2.1 (by decide), mainIn.2.2.2 (by decide)⟩

/-- Claim C8, counterexample.  The shared-secret *header* being absent does
not force a 401: `getClientKey` falls back to the `key` query parameter, so
a request to the authenticated `/api/quote` route carrying no header at all
but `?key=secret-key` matching the configured server key passes the
middleware (`next`) instead of being rejected with 401. -/
theorem c8_counterexample :
    Part003.authMiddleware "secret-key" "/api/quote" "" "" "" "secret-key" =
      .next ∧
    Part003.AuthOutcome.next ≠ .respond 401 "Unauthorized" := by
  constructor
  · decide
  · decide

/-- Claim C8 (amended).  On any non-open path, when a server key is
configured and the trimmed client key — taken from the first non-empty of
the three accepted header spellings and the `key` *query parameter* — does
not equal it (in particular when header and query are both absent),
`part_003`'s auth middleware responds 401 with the fixed message
`"Unauthorized"`, a constant that does not depend on (and so never echoes)
the expected key.  A header-less request whose `key` query parameter
matches the server key, however, passes auth (see the counterexample). -/
theorem c8_auth_unauthorized (sk path h1 h2 h3 q : String)
    (hsk : sk ≠ "") (hopen : Part003.OPEN_PATHS.contains path = false)
    (hne : Part003.getClientKey h1 h2 h3 q ≠ sk) :
    Part003.authMiddleware sk path h1 h2 h3 q = .respond 401 "Unauthorized" := by
  have hsk' : (sk == "") = false := beq_eq_false_iff_ne.mpr hsk
  have hne' : (Part003.getClientKey h1 h2 h3 q != sk) = true := by
    simp [bne_iff_ne, hne]
  have hopen' : path ∉ Part003.OPEN_PATHS := by simpa using hopen
  unfold Part003.authMiddleware
  simp [hopen, hopen', hsk', hne']

/-- Claim C8, witness.  A request to `/api/quote` with no key supplied at
all, against a configured server key. -/
theorem c8_auth_unauthorized_witness :
    Part003.authMiddleware "secret-key" "/api/quote" "" "" "" "" =
      .respond 401 "Unauthorized" :=
  c8_auth_unauthorized "secret-key" "/api/quote" "" "" "" "" (by decide) (by decide)
    (by decide)

/-- Claim C9 (confirmed).  Quote totals are never negative: any success
response of the `src/server.js` handler has a non-negative total (its
distance is non-negative on both the google and the rough path, and pax and
luggage are counts), and in `part_001` the priced total is non-negative
whenever the configured coefficients, the surcharge rate and fee, and the
resolved distance and duration are non-negative. -/
theorem c9_total_nonneg (hasKey : Bool) (f : Option FetchResult) (body : Option Body)
    (q : ServerJs.Quote) (P : Part001.Pricing) (S : Part001.Surcharges) (km mins : ℚ)
    (pax luggage : Option Nat) (m : Nat) (p d : String) :
    (ServerJs.quoteHandler hasKey f body = .okQ 200 q → 0 ≤ q.total) ∧
    (0 ≤ P.base → 0 ≤ P.perKm → 0 ≤ P.perMin → 0 ≤ P.perPax → 0 ≤ P.perBag →
      0 ≤ S.afterHoursRate → 0 ≤ S.airportFee → 0 ≤ km → 0 ≤ mins →
      0 ≤ (Part001.priceQuote P S km mins pax luggage m p d).total) := by
  constructor
  · intro h
    cases body with
    | none =>
      simp [ServerJs.quoteHandler, ServerJs.reqMissing, strFalsy] at h
    | some b =>
      have hq := ServerJs.handler_ok hasKey f b q h
      subst hq
      rw [ServerJs.quoteValid_eq]
      simp only
      apply round2_nonneg
      have hkm := ServerJs.resolveKm_fst_nonneg hasKey f (b.pickup.getD "")
        (b.dropoff.getD "")
      have hkm2 : (0 : ℚ) ≤ 11 / 5 *
          (ServerJs.resolveKm hasKey f (b.pickup.getD "") (b.dropoff.getD "")).1 :=
        mul_nonneg (by norm_num) hkm
      have hp1 : (1 : ℚ) ≤ (paxNum b.pax : ℚ) := by
        exact_mod_cast paxNum_ge_one b.pax
      have hlug : (0 : ℚ) ≤ (lugNum b.luggage : ℚ) := Nat.cast_nonneg _
      linarith
  · intro hb hpk hpm hpp hpb hrate hfee hkm0 hmins0
    unfold Part001.priceQuote
    simp only
    apply round2_nonneg
    have hsub0 : (0 : ℚ) ≤ P.base + P.perKm * km + P.perMin * mins
        + P.perPax * max 0 ((paxNum pax : ℚ) - 1)
        + P.perBag * max 0 (((luggage.getD 0 : ℕ)) : ℚ) := by
      have h1 := mul_nonneg hpk hkm0
      have h2 := mul_nonneg hpm hmins0
      have h3 : (0 : ℚ) ≤ P.perPax * max 0 ((paxNum pax : ℚ) - 1) :=
        mul_nonneg hpp (le_max_left 0 _)
      have h4 : (0 : ℚ) ≤ P.perBag * max 0 (((luggage.getD 0 : ℕ)) : ℚ) :=
        mul_nonneg hpb (le_max_left 0 _)
      linarith
    have hsub1 : (0 : ℚ) ≤ (P.base + P.perKm * km + P.perMin * mins
        + P.perPax * max 0 ((paxNum pax : ℚ) - 1)
        + P.perBag * max 0 (((luggage.getD 0 : ℕ)) : ℚ)) * S.afterHoursRate :=
      mul_nonneg hsub0 hrate
    split
    · split
      · linarith
      · linarith
    · split
      · linarith
      · linarith

/-- Claim C9, witness.  A concrete `src/server.js` success response (rough
10 km, total 87.00) and `part_001`'s default configuration at 16 km / 32
min inside the after-hours window. -/
theorem c9_total_nonneg_witness :
    ServerJs.quoteHandler false none (some ⟨some "a", some "b", some "w", none, none⟩) =
      .okQ 200 ⟨"AUD", 87, ⟨65, 11 / 5, 10, "rough", 0, 0, none⟩, "a", "b", "w", 1, 0⟩ ∧
    (0 : ℚ) ≤ (ServerJs.Quote.mk "AUD" 87 ⟨65, 11 / 5, 10, "rough", 0, 0, none⟩
      "a" "b" "w" 1 0).total ∧
    (0 : ℚ) ≤ (Part001.priceQuote Part001.defaultPricing Part001.defaultSurcharges 16 32
      (some 2) (some 1) 1380 "Brisbane Airport" "South Bank").total := by
  have hl1 : "a".length = 1 := by decide
  have hl2 : "b".length = 1 := by decide
  have h : ServerJs.quoteHandler false none
      (some ⟨some "a", some "b", some "w", none, none⟩) =
      .okQ 200 ⟨"AUD", 87, ⟨65, 11 / 5, 10, "rough", 0, 0, none⟩, "a", "b", "w", 1, 0⟩ := by
    norm_num +decide [ServerJs.quoteHandler, ServerJs.quoteValid, ServerJs.reqMissing,
      ServerJs.resolveKm, ServerJs.getDistanceKmAndMinutes, strFalsy, paxNum, lugNum,
      roughLenKm, round2, round_eq, hl1, hl2]
  have main := c9_total_nonneg false none
    (some ⟨some "a", some "b", some "w", none, none⟩)
    ⟨"AUD", 87, ⟨65, 11 / 5, 10, "rough", 0, 0, none⟩, "a", "b", "w", 1, 0⟩
    Part001.defaultPricing Part001.defaultSurcharges 16 32 (some 2) (some 1) 1380
    "Brisbane Airport" "South Bank"
  refine ⟨h, main.1 h, main.2 ?_ ?_ ?_ ?_ ?_ ?_ ?_ ?_ ?_⟩
  all_goals norm_num [Part001.defaultPricing, Part001.defaultSurcharges]
